import Mathlib

/-!
Verification of the scrape orchestration engine in
`src/program/scrapers/__init__.py` (class `Scraping`): backoff-based
eligibility (`should_submit`, `can_we_scrape`), hierarchical frontier
selection (`partial_state`), the submission pipeline (`run`), and the
concurrent fan-out/merge (`scrape`).

Timestamps are modelled as integers counting seconds (`datetime.now()`
becomes an explicit `now : Int` parameter;
`(now - scraped_at).total_seconds()` becomes integer subtraction).
Python dictionaries keyed by strings are modelled as association lists in
insertion order, with `dict.update` replacing the value of an existing key
in place and appending fresh keys at the end.
-/

set_option autoImplicit false

namespace Riven

/-- Modelled from the spec: lifecycle states of a media entity
(`program.media.state.States` is not part of the source under review; the
spec lists `Requested…Completed, PartiallyCompleted`). Only `Completed`
and `PartiallyCompleted` are inspected by the scraping engine. -/
inductive States where
  | Unknown
  | Unreleased
  | Ongoing
  | Requested
  | Indexed
  | Scraped
  | Downloaded
  | Symlinked
  | Completed
  | PartiallyCompleted
  | Failed
deriving DecidableEq, Repr

/-- Modelled from the spec: the `Stream` value object
(`program.media.stream.Stream` is not part of the source under review; the
spec gives it a dedup key / infohash, raw and parsed titles, and a numeric
rank). Equality of streams, used by Python's `in` on `item.streams`, is
structural value equality. -/
structure Stream where
  infohash : String
  raw_title : String
  parsed_title : String
  rank : Int
deriving DecidableEq, Repr

/-- Scraping settings consumed by `should_submit`: the `after_2`,
`after_5`, `after_10` hour multipliers of `settings_manager.settings.scraping`. -/
structure ScrapingSettings where
  after_2 : Nat
  after_5 : Nat
  after_10 : Nat
deriving DecidableEq, Repr

/-- A `Movie` leaf entity: the attributes of `MediaItem` read or written by
the scraping engine. -/
structure Movie where
  state : States
  last_state : States
  is_released : Bool
  scraped_at : Option Int
  scraped_times : Nat
  streams : List Stream
deriving DecidableEq, Repr

/-- An `Episode` leaf entity. -/
structure Episode where
  state : States
  last_state : States
  is_released : Bool
  scraped_at : Option Int
  scraped_times : Nat
  streams : List Stream
deriving DecidableEq, Repr

/-- A `Season`, owning its episodes. -/
structure Season where
  state : States
  last_state : States
  is_released : Bool
  scraped_at : Option Int
  scraped_times : Nat
  streams : List Stream
  episodes : List Episode
deriving DecidableEq, Repr

/-- A `Show`, owning its seasons. -/
structure Show where
  state : States
  last_state : States
  is_released : Bool
  scraped_at : Option Int
  scraped_times : Nat
  streams : List Stream
  seasons : List Season
deriving DecidableEq, Repr

/-- The polymorphic `MediaItem` handed to the engine: one of
Movie / Show / Season / Episode. -/
inductive MediaItem where
  | movie (m : Movie)
  | show (s : Show)
  | season (s : Season)
  | episode (e : Episode)
deriving DecidableEq, Repr

namespace MediaItem

/-- `item.state`. -/
def state : MediaItem → States
  | .movie m => m.state
  | .show s => s.state
  | .season s => s.state
  | .episode e => e.state

/-- `item.last_state`. -/
def last_state : MediaItem → States
  | .movie m => m.last_state
  | .show s => s.last_state
  | .season s => s.last_state
  | .episode e => e.last_state

/-- `item.is_released`. -/
def is_released : MediaItem → Bool
  | .movie m => m.is_released
  | .show s => s.is_released
  | .season s => s.is_released
  | .episode e => e.is_released

/-- `item.scraped_at` (a `None`-able timestamp). -/
def scraped_at : MediaItem → Option Int
  | .movie m => m.scraped_at
  | .show s => s.scraped_at
  | .season s => s.scraped_at
  | .episode e => e.scraped_at

/-- `item.scraped_times`. -/
def scraped_times : MediaItem → Nat
  | .movie m => m.scraped_times
  | .show s => s.scraped_times
  | .season s => s.scraped_times
  | .episode e => e.scraped_times

/-- `item.streams`. -/
def streams : MediaItem → List Stream
  | .movie m => m.streams
  | .show s => s.streams
  | .season s => s.streams
  | .episode e => e.streams

/-- In-place assignment `item.streams = l` (the effect of appending during
`run`, made explicit as a functional update). -/
def setStreams : MediaItem → List Stream → MediaItem
  | .movie m, l => .movie { m with streams := l }
  | .show s, l => .show { s with streams := l }
  | .season s, l => .season { s with streams := l }
  | .episode e, l => .episode { e with streams := l }

/-- `item.set("scraped_at", t)`. -/
def setScrapedAt : MediaItem → Option Int → MediaItem
  | .movie m, t => .movie { m with scraped_at := t }
  | .show s, t => .show { s with scraped_at := t }
  | .season s, t => .season { s with scraped_at := t }
  | .episode e, t => .episode { e with scraped_at := t }

/-- `item.set("scraped_times", n)`. -/
def setScrapedTimes : MediaItem → Nat → MediaItem
  | .movie m, n => .movie { m with scraped_times := n }
  | .show s, n => .show { s with scraped_times := n }
  | .season s, n => .season { s with scraped_times := n }
  | .episode e, n => .episode { e with scraped_times := n }

@[simp] theorem streams_setStreams (it : MediaItem) (l : List Stream) :
    (it.setStreams l).streams = l := by cases it <;> rfl

@[simp] theorem streams_setScrapedAt (it : MediaItem) (t : Option Int) :
    (it.setScrapedAt t).streams = it.streams := by cases it <;> rfl

@[simp] theorem streams_setScrapedTimes (it : MediaItem) (n : Nat) :
    (it.setScrapedTimes n).streams = it.streams := by cases it <;> rfl

@[simp] theorem scraped_at_setStreams (it : MediaItem) (l : List Stream) :
    (it.setStreams l).scraped_at = it.scraped_at := by cases it <;> rfl

@[simp] theorem scraped_at_setScrapedAt (it : MediaItem) (t : Option Int) :
    (it.setScrapedAt t).scraped_at = t := by cases it <;> rfl

@[simp] theorem scraped_at_setScrapedTimes (it : MediaItem) (n : Nat) :
    (it.setScrapedTimes n).scraped_at = it.scraped_at := by cases it <;> rfl

@[simp] theorem scraped_times_setStreams (it : MediaItem) (l : List Stream) :
    (it.setStreams l).scraped_times = it.scraped_times := by cases it <;> rfl

@[simp] theorem scraped_times_setScrapedAt (it : MediaItem) (t : Option Int) :
    (it.setScrapedAt t).scraped_times = it.scraped_times := by cases it <;> rfl

@[simp] theorem scraped_times_setScrapedTimes (it : MediaItem) (n : Nat) :
    (it.setScrapedTimes n).scraped_times = n := by cases it <;> rfl

end MediaItem

namespace Scraping

/-- The `scrape_time` computation at the head of `Scraping.should_submit`:
5 minutes by default, overridden by the tiered `if/elif` chain on
`item.scraped_times`. -/
def scrapeTimeFor (cfg : ScrapingSettings) (scraped_times : Nat) : Nat :=
  if 2 ≤ scraped_times ∧ scraped_times ≤ 5 then cfg.after_2 * 60 * 60
  else if 5 < scraped_times ∧ scraped_times ≤ 10 then cfg.after_5 * 60 * 60
  else if 10 < scraped_times then cfg.after_10 * 60 * 60
  else 5 * 60

/-- `Scraping.should_submit(item)`: true when `item.scraped_at` is unset
(`not item.scraped_at`), or when
`(datetime.now() - item.scraped_at).total_seconds() > scrape_time`. -/
def should_submit (cfg : ScrapingSettings) (now : Int) (item : MediaItem) : Bool :=
  match item.scraped_at with
  | none => true
  | some t => decide ((scrapeTimeFor cfg item.scraped_times : Int) < now - t)

/-- `Scraping.can_we_scrape(item)`: false when the item is not released,
false when `should_submit` is false, true otherwise. -/
def can_we_scrape (cfg : ScrapingSettings) (now : Int) (item : MediaItem) : Bool :=
  if !item.is_released then false
  else if !should_submit cfg now item then false
  else true

end Scraping

/-- The tier table exactly as the spec words it: 5 minutes for
`scrapedTimes` 0–1, `after_2` hours for 2–5, `after_5` hours for 6–10,
`after_10` hours for more than 10. Stated separately from
`Scraping.scrapeTimeFor` so the code's `if/elif` chain can be compared
against it. -/
def specTierInterval (cfg : ScrapingSettings) (scraped_times : Nat) : Nat :=
  if scraped_times ≤ 1 then 5 * 60
  else if scraped_times ≤ 5 then cfg.after_2 * 60 * 60
  else if scraped_times ≤ 10 then cfg.after_5 * 60 * 60
  else cfg.after_10 * 60 * 60

theorem scrapeTimeFor_eq_specTierInterval (cfg : ScrapingSettings) (n : Nat) :
    Scraping.scrapeTimeFor cfg n = specTierInterval cfg n := by
  unfold Scraping.scrapeTimeFor specTierInterval
  split_ifs <;> first | rfl | omega

/-- A movie already scraped 3 times at timestamp 0: the entity of the
spec's backoff-tier example. -/
def movieScraped3 : MediaItem :=
  .movie { state := .Indexed, last_state := .Indexed, is_released := true,
           scraped_at := some 0, scraped_times := 3, streams := [] }

/-- The settings of the spec's backoff-tier example: `after_2 = 2` hours. -/
def cfgAfter2 : ScrapingSettings := { after_2 := 2, after_5 := 5, after_10 := 10 }

/-- C1: `should_submit(entity)` is true iff `entity.scraped_at` is unset, or
the elapsed seconds since `entity.scraped_at` exceed the tier interval
determined by `entity.scraped_times` (5 minutes for 0–1, `after_2` hours for
2–5, `after_5` hours for 6–10, `after_10` hours above 10); with
`scraped_times = 3` and `after_2 = 2`, elapsed 1h59m (7140 s) is ineligible
and 2h01m (7260 s) is eligible. -/
theorem should_submit_iff_tier_elapsed :
    (∀ (cfg : ScrapingSettings) (now : Int) (item : MediaItem),
      Scraping.should_submit cfg now item = true ↔
        (item.scraped_at = none ∨
          ∃ t, item.scraped_at = some t ∧
            (specTierInterval cfg item.scraped_times : Int) < now - t))
    ∧ Scraping.should_submit cfgAfter2 7140 movieScraped3 = false
    ∧ Scraping.should_submit cfgAfter2 7260 movieScraped3 = true := by
  refine ⟨fun cfg now item => ?_, by decide, by decide⟩
  unfold Scraping.should_submit
  rw [scrapeTimeFor_eq_specTierInterval]
  cases h : item.scraped_at with
  | none => simp
  | some t => simp [h]

/-- C5: `can_we_scrape(entity)` is true iff the entity is released and
`should_submit(entity)` is true; it is false whenever either fails. -/
theorem can_we_scrape_iff :
    ∀ (cfg : ScrapingSettings) (now : Int) (item : MediaItem),
      Scraping.can_we_scrape cfg now item = true ↔
        (item.is_released = true ∧ Scraping.should_submit cfg now item = true) := by
  intro cfg now item
  unfold Scraping.can_we_scrape
  cases item.is_released <;> cases Scraping.should_submit cfg now item <;> simp

/-- C9: for a fixed entity, `should_submit` is monotone in wall-clock time:
if it holds at time `t1` it holds at any later time `t2`. -/
theorem should_submit_monotone (cfg : ScrapingSettings) (item : MediaItem)
    (t1 t2 : Int) (hle : t1 ≤ t2)
    (h1 : Scraping.should_submit cfg t1 item = true) :
    Scraping.should_submit cfg t2 item = true := by
  unfold Scraping.should_submit at h1 ⊢
  cases h : item.scraped_at with
  | none => rfl
  | some t =>
    rw [h] at h1
    simp only [decide_eq_true_eq] at h1 ⊢
    omega

/-- Witness for C9 at a concrete entity and pair of times. -/
theorem should_submit_monotone_witness :
    Scraping.should_submit cfgAfter2 7300 movieScraped3 = true :=
  should_submit_monotone cfgAfter2 movieScraped3 7260 7300 (by decide) (by decide)

namespace Scraping

/-- The stream-append loop at the heart of `Scraping.run`:
`for stream in sorted_streams.values(): if stream not in item.streams:
item.streams.append(stream)`. -/
def mergeStreams (base : List Stream) (sorted_streams : List Stream) : List Stream :=
  sorted_streams.foldl (fun acc s => if s ∈ acc then acc else acc ++ [s]) base

/-- `Scraping.run(item)`: gate through `can_we_scrape`; when eligible,
obtain `sorted_streams = self.scrape(item)` (the fan-out, merge and
ranking, abstracted as the function `scrape`), append the streams not
already present, and record `scraped_at = now` and
`scraped_times += 1`; finally `yield item`. The result is the mutated
item together with the list of values the generator yields. -/
def run (cfg : ScrapingSettings) (now : Int)
    (scrape : MediaItem → List Stream) (item : MediaItem) :
    MediaItem × List MediaItem :=
  let item1 :=
    if can_we_scrape cfg now item then
      let sorted_streams := scrape item
      ((item.setStreams (mergeStreams item.streams sorted_streams)).setScrapedAt
          (some now)).setScrapedTimes (item.scraped_times + 1)
    else item
  (item1, [item1])

/-- `Scraping.run(item)` when the ranking step inside `self.scrape` can
raise: `_parse_results` runs before any mutation of the item, so an
exception leaves the item untouched and propagates out of the generator
(the third component records the propagated exception; the yielded list is
empty in that case because `yield item` is never reached). -/
def runE {ε : Type} (cfg : ScrapingSettings) (now : Int)
    (scrape : MediaItem → Except ε (List Stream)) (item : MediaItem) :
    MediaItem × List MediaItem × Option ε :=
  if can_we_scrape cfg now item then
    match scrape item with
    | .error e => (item, [], some e)
    | .ok sorted_streams =>
        let item1 :=
          ((item.setStreams (mergeStreams item.streams sorted_streams)).setScrapedAt
              (some now)).setScrapedTimes (item.scraped_times + 1)
        (item1, [item1], none)
  else (item, [item], none)

theorem mergeStreams_nil (base : List Stream) : mergeStreams base [] = base := rfl

theorem mergeStreams_cons (base : List Stream) (x : Stream) (l : List Stream) :
    mergeStreams base (x :: l) =
      mergeStreams (if x ∈ base then base else base ++ [x]) l := rfl

theorem mem_mergeStreams_of_mem_base {a : Stream} {base : List Stream}
    (l : List Stream) (h : a ∈ base) : a ∈ mergeStreams base l := by
  induction l generalizing base with
  | nil => exact h
  | cons x l ih =>
    rw [mergeStreams_cons]
    apply ih
    split
    · exact h
    · exact List.mem_append_left _ h

theorem mem_mergeStreams_of_mem {a : Stream} {l : List Stream}
    (base : List Stream) (h : a ∈ l) : a ∈ mergeStreams base l := by
  induction l generalizing base with
  | nil => cases h
  | cons x l ih =>
    rw [mergeStreams_cons]
    rcases List.mem_cons.mp h with rfl | hl
    · apply mem_mergeStreams_of_mem_base
      split
      · assumption
      · exact List.mem_append_right _ (List.mem_singleton.mpr rfl)
    · exact ih _ hl

theorem mergeStreams_eq_of_subset {l base : List Stream}
    (h : ∀ a ∈ l, a ∈ base) : mergeStreams base l = base := by
  induction l generalizing base with
  | nil => rfl
  | cons x l ih =>
    rw [mergeStreams_cons, if_pos (h x (List.mem_cons_self x l))]
    exact ih fun a ha => h a (List.mem_cons_of_mem x ha)

theorem mergeStreams_idem (base l : List Stream) :
    mergeStreams (mergeStreams base l) l = mergeStreams base l :=
  mergeStreams_eq_of_subset fun _ ha => mem_mergeStreams_of_mem _ ha

end Scraping

/-- C2: submitting twice with backends returning identical results both
times leaves `streams` at the length of a single submission — the append
loop in step 3 of `run` only adds a ranked stream when it is not already
present, so the second pass adds nothing. -/
theorem run_twice_streams_length (cfg : ScrapingSettings) (now1 now2 : Int)
    (scrape : MediaItem → List Stream) (item : MediaItem)
    (hgate : Scraping.can_we_scrape cfg now1 item = true)
    (hsame : scrape (Scraping.run cfg now1 scrape item).1 = scrape item) :
    (Scraping.run cfg now2 scrape (Scraping.run cfg now1 scrape item).1).1.streams.length
      = (Scraping.run cfg now1 scrape item).1.streams.length := by
  have hI1 : (Scraping.run cfg now1 scrape item).1
      = ((item.setStreams (Scraping.mergeStreams item.streams (scrape item))).setScrapedAt
          (some now1)).setScrapedTimes (item.scraped_times + 1) := by
    simp only [Scraping.run, hgate, if_true]
  rw [hI1] at hsame ⊢
  simp only [Scraping.run]
  split
  · simp [hsame, Scraping.mergeStreams_idem]
  · rfl

/-- A constant backend/ranker outcome used by concrete witnesses: every
call returns the same single ranked stream. -/
def constScrapeW : MediaItem → List Stream :=
  fun _ => [{ infohash := "abc", raw_title := "r", parsed_title := "p", rank := 7 }]

/-- An eligible movie (never scraped, released) used by concrete witnesses. -/
def movieFreshW : MediaItem :=
  .movie { state := .Indexed, last_state := .Indexed, is_released := true,
           scraped_at := none, scraped_times := 0, streams := [] }

/-- Witness for C2 at a concrete entity and constant backend results. -/
theorem run_twice_streams_length_witness :
    (Scraping.run cfgAfter2 60 constScrapeW
        (Scraping.run cfgAfter2 0 constScrapeW movieFreshW).1).1.streams.length
      = (Scraping.run cfgAfter2 0 constScrapeW movieFreshW).1.streams.length :=
  run_twice_streams_length cfgAfter2 0 60 constScrapeW movieFreshW (by decide) rfl

/-- C8: when `can_we_scrape` is false, `run` performs no backend queries
(the result is the same whatever `scrape` would return) and yields the
unchanged entity as its single result. -/
theorem run_ineligible_unchanged (cfg : ScrapingSettings) (now : Int)
    (scrape : MediaItem → List Stream) (item : MediaItem)
    (hgate : Scraping.can_we_scrape cfg now item = false) :
    Scraping.run cfg now scrape item = (item, [item])
      ∧ (Scraping.run cfg now scrape item).1.streams = item.streams
      ∧ (Scraping.run cfg now scrape item).1.scraped_at = item.scraped_at
      ∧ (Scraping.run cfg now scrape item).1.scraped_times = item.scraped_times := by
  unfold Scraping.run
  rw [hgate]
  exact ⟨rfl, rfl, rfl, rfl⟩

/-- An unreleased movie: `can_we_scrape` rejects it. -/
def movieUnreleasedW : MediaItem :=
  .movie { state := .Unreleased, last_state := .Unreleased, is_released := false,
           scraped_at := none, scraped_times := 0, streams := [] }

/-- Witness for C8 at a concrete ineligible entity. -/
theorem run_ineligible_unchanged_witness :
    Scraping.run cfgAfter2 0 constScrapeW movieUnreleasedW
      = (movieUnreleasedW, [movieUnreleasedW]) :=
  (run_ineligible_unchanged cfgAfter2 0 constScrapeW movieUnreleasedW (by decide)).1

/-- C6: a ranking failure propagates to the caller of `run` and the
entity is not touched: `scraped_at`, `scraped_times` and `streams` all
keep their prior values, and no value is yielded. -/
theorem run_ranker_failure_propagates {ε : Type} (cfg : ScrapingSettings)
    (now : Int) (scrape : MediaItem → Except ε (List Stream))
    (item : MediaItem) (e : ε)
    (hgate : Scraping.can_we_scrape cfg now item = true)
    (hfail : scrape item = .error e) :
    Scraping.runE cfg now scrape item = (item, [], some e) := by
  unfold Scraping.runE
  rw [hgate, hfail]
  rfl

/-- A ranking step that always fails, used by the C6 witness. -/
def failScrapeW : MediaItem → Except String (List Stream) :=
  fun _ => .error "rank failed"

/-- Witness for C6 at a concrete eligible entity and failing ranker. -/
theorem run_ranker_failure_propagates_witness :
    Scraping.runE cfgAfter2 0 failScrapeW movieFreshW
      = (movieFreshW, [], some "rank failed") :=
  run_ranker_failure_propagates cfgAfter2 0 failScrapeW movieFreshW
    "rank failed" (by decide) rfl

/-- A Python `dict` keyed by strings, as an association list in insertion
order (the `results` accumulator of `Scraping.scrape`). -/
abbrev ResultMap (α : Type) : Type := List (String × α)

/-- The key sequence of a dict. -/
def keysOf {α : Type} (m : ResultMap α) : List String := m.map Prod.fst

/-- `k in m` for a dict. -/
def hasKey {α : Type} (m : ResultMap α) (k : String) : Bool :=
  m.any fun p => p.1 == k

/-- `m[k] = v` on a Python dict: replace the value in place when the key
exists, otherwise append the new pair at the end. -/
def dictInsert {α : Type} (m : ResultMap α) (k : String) (v : α) : ResultMap α :=
  if hasKey m k then m.map fun p => if p.1 == k then (k, v) else p
  else m ++ [(k, v)]

/-- `m.update(w)` on Python dicts: insert every pair of `w` in order. -/
def dictUpdate {α : Type} (m w : ResultMap α) : ResultMap α :=
  w.foldl (fun acc p => dictInsert acc p.1 p.2) m

theorem hasKey_iff_mem_keysOf {α : Type} (m : ResultMap α) (k : String) :
    hasKey m k = true ↔ k ∈ keysOf m := by
  simp [hasKey, keysOf, List.any_eq_true, List.mem_map, beq_iff_eq]

theorem keysOf_dictInsert {α : Type} (m : ResultMap α) (k : String) (v : α) :
    keysOf (dictInsert m k v)
      = if hasKey m k then keysOf m else keysOf m ++ [k] := by
  unfold dictInsert
  split
  · simp only [keysOf, List.map_map]
    apply List.map_congr_left
    intro p _
    by_cases hp : p.1 == k
    · simp only [Function.comp_apply, if_pos hp]
      exact (eq_of_beq hp).symm
    · simp only [Function.comp_apply, if_neg hp]
  · simp [keysOf]

theorem nodup_keysOf_dictInsert {α : Type} {m : ResultMap α} (k : String)
    (v : α) (h : (keysOf m).Nodup) : (keysOf (dictInsert m k v)).Nodup := by
  rw [keysOf_dictInsert]
  split
  · exact h
  · have hk : k ∉ keysOf m := by
      intro hmem
      rename_i hfalse
      rw [Bool.not_eq_true] at hfalse
      rw [← hasKey_iff_mem_keysOf, hfalse] at hmem
      cases hmem
    simp [List.nodup_append, h, hk]

theorem nodup_keysOf_dictUpdate {α : Type} (w : ResultMap α) :
    ∀ m : ResultMap α, (keysOf m).Nodup → (keysOf (dictUpdate m w)).Nodup := by
  induction w with
  | nil => exact fun m h => h
  | cons p w ih =>
    intro m h
    show (keysOf (dictUpdate (dictInsert m p.1 p.2) w)).Nodup
    exact ih _ (nodup_keysOf_dictInsert p.1 p.2 h)

namespace Scraping

/-- The merge phase of `Scraping.scrape`: each worker thread runs
`results.update(service_results); total_results += len(service_results)`
inside the `results_lock` critical section, starting from the empty dict
and a zero counter. The worker mappings are listed in the order their
critical sections ran. Returns the merged dict and `total_results`. -/
def scrapeMerge {α : Type} (workers : List (ResultMap α)) : ResultMap α × Nat :=
  workers.foldl (fun acc w => (dictUpdate acc.1 w, acc.2 + w.length)) ([], 0)

/-- The duplicate count `total_results - len(results)` reported by the
debug diagnostic of `Scraping.scrape`. -/
def duplicatesReported {α : Type} (workers : List (ResultMap α)) : Nat :=
  (scrapeMerge workers).2 - (scrapeMerge workers).1.length

/-- The merge phase of `Scraping.scrape` when worker threads may raise:
CPython confines an exception in a thread target to that thread
(`threading.excepthook` reports one traceback per dying thread), the
thread never reaches its `results_lock` critical section, and
`thread.join()` still returns normally — so `scrape` itself never raises.
Each worker's outcome is `ok` with its mapping, or `error`. Returns the
merged dict, `total_results`, and the number of per-thread failure
diagnostics. -/
def scrapeMergeE {ε α : Type} (workers : List (Except ε (ResultMap α))) :
    ResultMap α × Nat × Nat :=
  workers.foldl
    (fun acc w =>
      match w with
      | .ok r => (dictUpdate acc.1 r, acc.2.1 + r.length, acc.2.2)
      | .error _ => (acc.1, acc.2.1, acc.2.2 + 1))
    ([], 0, 0)

theorem scrapeMerge_go_nodup {α : Type} (workers : List (ResultMap α)) :
    ∀ acc : ResultMap α × Nat, (keysOf acc.1).Nodup →
      (keysOf (workers.foldl
          (fun acc w => (dictUpdate acc.1 w, acc.2 + w.length)) acc).1).Nodup := by
  induction workers with
  | nil => exact fun acc h => h
  | cons w ws ih =>
    intro acc h
    exact ih _ (nodup_keysOf_dictUpdate w acc.1 h)

theorem scrapeMerge_go_total {α : Type} (workers : List (ResultMap α)) :
    ∀ acc : ResultMap α × Nat,
      (workers.foldl
          (fun acc w => (dictUpdate acc.1 w, acc.2 + w.length)) acc).2
        = acc.2 + (workers.map List.length).sum := by
  induction workers with
  | nil => intro acc; simp
  | cons w ws ih =>
    intro acc
    rw [List.foldl_cons, ih]
    simp
    omega

end Scraping

/-- C4: the merged mapping handed to the Ranker has at most one entry per
key (its keys are duplicate-free), the reported duplicate count is the
total number of pairs offered by all workers minus the size of the merged
mapping, and two backends each offering one result under the same key "X"
merge to exactly one entry with one duplicate reported. -/
theorem scrape_merge_dedup_count :
    (∀ (α : Type) (workers : List (ResultMap α)),
      (keysOf (Scraping.scrapeMerge workers).1).Nodup
        ∧ Scraping.duplicatesReported workers
            = (workers.map List.length).sum
                - (Scraping.scrapeMerge workers).1.length)
    ∧ (Scraping.scrapeMerge
        ([[("X", "title-a")], [("X", "title-b")]] : List (ResultMap String))).1.length = 1
    ∧ Scraping.duplicatesReported
        ([[("X", "title-a")], [("X", "title-b")]] : List (ResultMap String)) = 1 := by
  refine ⟨fun α workers => ⟨?_, ?_⟩, by rfl, by rfl⟩
  · exact Scraping.scrapeMerge_go_nodup workers ([], 0) List.nodup_nil
  · unfold Scraping.duplicatesReported Scraping.scrapeMerge
    rw [Scraping.scrapeMerge_go_total]
    simp

/-- C7: with three active backends of which one always raises, the merge
still returns the combined results of the two healthy backends — whichever
position the failing backend ran in — the failure produces exactly one
diagnostic, and nothing is raised to the caller of `scrape`
(`scrapeMergeE` is total: its codomain carries no error case). -/
theorem scrape_one_backend_fails :
    ∀ (ε α : Type) (e : ε) (w1 w2 : ResultMap α),
      Scraping.scrapeMergeE [Except.error e, Except.ok w1, Except.ok w2]
          = (dictUpdate (dictUpdate [] w1) w2, w1.length + w2.length, 1)
        ∧ Scraping.scrapeMergeE [Except.ok w1, Except.error e, Except.ok w2]
          = (dictUpdate (dictUpdate [] w1) w2, w1.length + w2.length, 1)
        ∧ Scraping.scrapeMergeE [Except.ok w1, Except.ok w2, Except.error e]
          = (dictUpdate (dictUpdate [] w1) w2, w1.length + w2.length, 1) := by
  intro ε α e w1 w2
  refine ⟨?_, ?_, ?_⟩ <;> simp [Scraping.scrapeMergeE]

/-- The value returned by `Scraping.partial_state`: Python lets it be the
literal `False`, a list of items, or the item itself. -/
inductive PSResult where
  | boolFalse
  | itemList (xs : List MediaItem)
  | single (it : MediaItem)
deriving DecidableEq, Repr

namespace Scraping

/-- `Scraping.partial_state(item)`: `False` unless
`item.last_state == States.PartiallyCompleted` and `can_we_scrape(item)`
is false. For a `Show`, fold over the seasons that are not Completed,
released and pass `should_submit`: a season whose every episode is
released and not Completed is appended whole, otherwise its released,
not-Completed episodes are appended individually. For a `Season`, all
released episodes. Otherwise the item itself. -/
def partial_state (cfg : ScrapingSettings) (now : Int) (item : MediaItem) : PSResult :=
  if !(item.last_state == States.PartiallyCompleted) || can_we_scrape cfg now item then
    .boolFalse
  else
    match item with
    | .show sh =>
        .itemList ((sh.seasons.filter fun s =>
            !(s.state == States.Completed) && s.is_released
              && should_submit cfg now (.season s)).foldl
          (fun res s =>
            if s.episodes.all fun episode =>
                episode.is_released && !(episode.state == States.Completed) then
              res ++ [MediaItem.season s]
            else
              res ++ ((s.episodes.filter fun e =>
                e.is_released && !(e.state == States.Completed)).map MediaItem.episode))
          [])
    | .season se =>
        .itemList ((se.episodes.filter fun e => e.is_released).map MediaItem.episode)
    | _ => .single item

theorem foldl_ite_append {α β : Type} (p : α → Bool) (f g : α → List β)
    (l : List α) : ∀ init : List β,
      l.foldl (fun res s => if p s then res ++ f s else res ++ g s) init
        = init ++ l.flatMap fun s => if p s then f s else g s := by
  induction l with
  | nil => simp
  | cons x l ih =>
    intro init
    rw [List.foldl_cons, ih, List.flatMap_cons]
    by_cases hp : p x = true <;> simp [hp, List.append_assoc]

end Scraping

/-- The frontier of §4.4 of the spec, following its words: applicable only
when `lastState == PartiallyCompleted` and the entity is not currently
scrape-eligible. For a Show, collect the scrape-eligible Seasons; a
collected Season all of whose episodes are released and incomplete is the
frontier unit itself, and otherwise its individually eligible (released,
incomplete) Episodes are. For a Season, all released Episodes. For a leaf,
the entity itself. -/
def partialFrontierSpec (cfg : ScrapingSettings) (now : Int) (item : MediaItem) : PSResult :=
  if item.last_state = States.PartiallyCompleted
      ∧ Scraping.can_we_scrape cfg now item = false then
    match item with
    | .show sh =>
        .itemList ((sh.seasons.filter fun s =>
            !(s.state == States.Completed) && s.is_released
              && Scraping.should_submit cfg now (.season s)).flatMap
          fun s =>
            if s.episodes.all fun episode =>
                episode.is_released && !(episode.state == States.Completed) then
              [MediaItem.season s]
            else
              (s.episodes.filter fun e =>
                e.is_released && !(e.state == States.Completed)).map MediaItem.episode)
    | .season se =>
        .itemList ((se.episodes.filter fun e => e.is_released).map MediaItem.episode)
    | _ => .single item
  else .boolFalse

/-- C3: `partial_state` computes exactly the spec's `partialFrontier`: a
frontier only when `last_state` is PartiallyCompleted and the entity is
not scrape-eligible; for a Show, each eligible Season appears whole when
all its episodes are released and incomplete and is otherwise replaced by
its released, incomplete episodes; for a Season, all released episodes. -/
theorem partial_state_eq_partialFrontierSpec :
    ∀ (cfg : ScrapingSettings) (now : Int) (item : MediaItem),
      Scraping.partial_state cfg now item = partialFrontierSpec cfg now item := by
  intro cfg now item
  unfold Scraping.partial_state partialFrontierSpec
  by_cases h1 : item.last_state = States.PartiallyCompleted
  · cases h2 : Scraping.can_we_scrape cfg now item with
    | false =>
      rw [if_neg (by simp [h1]), if_pos ⟨h1, rfl⟩]
      cases item with
      | «show» sh =>
        exact congrArg PSResult.itemList
          ((Scraping.foldl_ite_append _ _ _ _ []).trans (List.nil_append _))
      | movie m => rfl
      | season se => rfl
      | episode e => rfl
    | true => rw [if_pos (by simp), if_neg (by simp)]
  · rw [if_pos (by simp [h1]), if_neg (by simp [h1])]

/-- C10: under `last_state = PartiallyCompleted` and a failing
`can_we_scrape`, `partial_state` hands a Movie or Episode back as the item
itself — a third result shape distinct from the `False` of the guard and
from the lists of the Show and Season cases, which both yield lists here. -/
theorem partial_state_leaf_single (cfg : ScrapingSettings) (now : Int)
    (m : Movie) (ep : Episode) (sh : Show) (se : Season)
    (hm1 : (MediaItem.movie m).last_state = States.PartiallyCompleted)
    (hm2 : Scraping.can_we_scrape cfg now (.movie m) = false)
    (he1 : (MediaItem.episode ep).last_state = States.PartiallyCompleted)
    (he2 : Scraping.can_we_scrape cfg now (.episode ep) = false)
    (hs1 : (MediaItem.show sh).last_state = States.PartiallyCompleted)
    (hs2 : Scraping.can_we_scrape cfg now (.show sh) = false)
    (hn1 : (MediaItem.season se).last_state = States.PartiallyCompleted)
    (hn2 : Scraping.can_we_scrape cfg now (.season se) = false) :
    Scraping.partial_state cfg now (.movie m) = .single (.movie m)
      ∧ Scraping.partial_state cfg now (.episode ep) = .single (.episode ep)
      ∧ (∃ xs, Scraping.partial_state cfg now (.show sh) = .itemList xs)
      ∧ (∃ xs, Scraping.partial_state cfg now (.season se) = .itemList xs) := by
  refine ⟨?_, ?_, ?_, ?_⟩
  · unfold Scraping.partial_state
    rw [if_neg (by simp [hm1, hm2])]
  · unfold Scraping.partial_state
    rw [if_neg (by simp [he1, he2])]
  · exact ⟨_, by unfold Scraping.partial_state; rw [if_neg (by simp [hs1, hs2])]⟩
  · exact ⟨_, by unfold Scraping.partial_state; rw [if_neg (by simp [hn1, hn2])]⟩

/-- A partially-completed, unreleased movie (so `can_we_scrape` is false). -/
def moviePCW : Movie :=
  { state := .PartiallyCompleted, last_state := .PartiallyCompleted,
    is_released := false, scraped_at := none, scraped_times := 0, streams := [] }

/-- A partially-completed, unreleased episode. -/
def episodePCW : Episode :=
  { state := .PartiallyCompleted, last_state := .PartiallyCompleted,
    is_released := false, scraped_at := none, scraped_times := 0, streams := [] }

/-- A partially-completed, unreleased season with no episodes. -/
def seasonPCW : Season :=
  { state := .PartiallyCompleted, last_state := .PartiallyCompleted,
    is_released := false, scraped_at := none, scraped_times := 0, streams := [],
    episodes := [] }

/-- A partially-completed, unreleased show with no seasons. -/
def showPCW : Show :=
  { state := .PartiallyCompleted, last_state := .PartiallyCompleted,
    is_released := false, scraped_at := none, scraped_times := 0, streams := [],
    seasons := [] }

/-- Witness for C10 at concrete leaf and composite entities. -/
theorem partial_state_leaf_single_witness :
    Scraping.partial_state cfgAfter2 0 (.movie moviePCW)
      = PSResult.single (.movie moviePCW) :=
  (partial_state_leaf_single cfgAfter2 0 moviePCW episodePCW showPCW seasonPCW
    (by decide) (by decide) (by decide) (by decide)
    (by decide) (by decide) (by decide) (by decide)).1

end Riven
